import Mathlib

/-! Shallow embedding of the turtlebot_panorama `PanoApp` orchestrator.
The repository source `include/turtlebot_panorama/panorama.h` declares the
class members and callbacks (their names are kept below); the implementation
file `panorama.cpp` is not among the sources, so every callback body is
modelled from the specification (`spec.md` sections 3, 4.1, 4.4, 6 and 7),
as recorded in each doc comment.  All angles are integers in degrees (the header stores doubles; the spec uses exact whole-degree semantics in every angle statement). -/

namespace TurtlebotPanorama

/-- Panorama creation mode.  The header stores this as the boolean member
`continuous` (panorama.h line 92: continuously rotating while taking
snapshots, or rotate, stop, snapshot, rotate, ...); the spec names the two
modes `continuous` and `stepwise`. -/
inductive Mode
  | continuous
  | stepwise
deriving DecidableEq, Repr

/-- Orchestrator state (spec 4.4): `Idle`, `AwaitingActive` (capture task
started, waiting for the go-active signal), `Rotating`, `HoldingForSnapshot`
(stepwise only), `Finalizing`.  The header realises `AwaitingActive` with the
booleans `is_active`/`go_active` (panorama.h lines 126 and 132); spec section 9
models it as an explicit state. -/
inductive OrchState
  | Idle
  | AwaitingActive
  | Rotating
  | HoldingForSnapshot
  | Finalizing
deriving DecidableEq, Repr

/-- One panorama session (spec section 3; member names from panorama.h
lines 89-92 and 126): target arc `given_angle`, snapshot interval
`snap_interval`, rotation velocity `ang_vel_cur`, the mode, accumulated
angle `angle`, accumulated angle at the last snapshot `last_angle`, the
latest snapshot count reported by capture feedback `snap_count`, the
odometry tracker's last-heading reference `last_heading` (`none` right after
a reset, spec 4.1), and the activity flag `is_active`. -/
structure Session where
  given_angle : ℤ
  snap_interval : ℤ
  ang_vel_cur : ℤ
  mode : Mode
  angle : ℤ
  last_angle : ℤ
  snap_count : Nat
  last_heading : Option ℤ
  is_active : Bool
deriving DecidableEq, Repr

/-- The orchestrator: its state-machine state plus the session fields. -/
structure PanoApp where
  state : OrchState
  sess : Session
deriving DecidableEq, Repr

/-- Commands the orchestrator emits towards its collaborators (spec 4.2, 4.3):
`rotate v` and `stop` go to the Motion Commander (publishing `cmd_vel` /
`zero_cmd_vel`, panorama.h line 88); `captureStart` (= `startPanoAction`),
`triggerSnapshot` (= `snap`, the `pub_action_snap` publication),
`finalizeCapture` (= `stopPanoAction`, triggers stitching) and
`cancelCapture` go to the Capture Service Client; `publishImage` is the
stitched-image output (`pub_stitched`). -/
inductive Cmd
  | rotate (v : ℤ)
  | stop
  | captureStart
  | triggerSnapshot
  | finalizeCapture
  | cancelCapture
  | publishImage
deriving DecidableEq, Repr

/-- Status returned by a start request (spec section 6):
`started | already-in-progress | rejected`. -/
inductive StartStatus
  | started
  | inProgress
  | rejected
deriving DecidableEq, Repr

/-- Events the orchestrator reacts to (spec sections 4.3 and 6): the two
start-request forms, the stop request, one odometry orientation sample, and
the capture-service notifications active / feedback(count) / result. -/
inductive Event
  | startFull (a i v : ℤ) (m : Mode)
  | startSimple
  | stopReq
  | odom (heading : ℤ)
  | goalActive
  | feedback (n : Nat)
  | result (ok : Bool)
deriving DecidableEq, Repr

/-- Configured fallback values used by the simplified start request
(panorama.h lines 136-148: `default_mode`, `default_pano_angle`,
`default_snap_interval`, `default_rotation_velocity`). -/
structure Config where
  default_mode : Mode
  default_pano_angle : ℤ
  default_snap_interval : ℤ
  default_rotation_velocity : ℤ
deriving DecidableEq, Repr

/-- Modelled from the spec: the Odometry Tracker normalization (spec 4.1,
`panorama.cpp` body of `odomCb` missing from the sources) — the signed
shortest angular difference, normalized into the half-open range
(-180, 180] degrees.  Spec 4.1 bounds the tracker's input to a heading in a
bounded circular range, so the difference of two headings lies in
(-360, 360) and one conditional shift of 360 normalizes it exactly. -/
def normDiff (d : ℤ) : ℤ :=
  if 180 < d then d - 360
  else if d ≤ -180 then d + 360
  else d

/-- The guard of panorama.h line 184 (`hasReachedAngle`), modelled from
spec 4.4 transition 3: the accumulated angle since the last snapshot has
reached the configured interval. -/
def hasReachedAngle (interval angle last_angle : ℤ) : Bool :=
  decide (interval ≤ angle - last_angle)

/-- The session fields of an idle orchestrator (session destroyed /
reset to idle, spec section 3). -/
def idleSession : Session :=
  { given_angle := 0, snap_interval := 0, ang_vel_cur := 0,
    mode := Mode.continuous, angle := 0, last_angle := 0, snap_count := 0,
    last_heading := none, is_active := false }

/-- The initial orchestrator: idle. -/
def initApp : PanoApp :=
  { state := OrchState.Idle, sess := idleSession }

/-- A freshly recorded session (spec 4.4 transition 1): parameters stored,
odometry tracker reset (accumulator cleared, heading reference rebased to
the next observed value), not yet active. -/
def freshSession (a i v : ℤ) (m : Mode) : Session :=
  { given_angle := a, snap_interval := i, ang_vel_cur := v, mode := m,
    angle := 0, last_angle := 0, snap_count := 0,
    last_heading := none, is_active := false }

/-- Modelled from the spec: the body of `takePanoServiceCb` (declared at
panorama.h line 156, `panorama.cpp` missing from the sources), spec 4.4
transition 1 and section 7: reject with already-in-progress while non-Idle;
reject invalid parameters (non-positive values, or interval > target angle);
otherwise record the session, reset the tracker, start the capture task and
move to `AwaitingActive`. -/
def takePanoServiceCb (app : PanoApp) (a i v : ℤ) (m : Mode) :
    PanoApp × List Cmd × StartStatus :=
  if app.state ≠ OrchState.Idle then (app, [], StartStatus.inProgress)
  else if 0 < a ∧ 0 < i ∧ 0 < v ∧ i ≤ a then
    ({ state := OrchState.AwaitingActive, sess := freshSession a i v m },
     [Cmd.captureStart], StartStatus.started)
  else (app, [], StartStatus.rejected)

/-- Modelled from the spec: the active-session part of `odomCb` while
`Rotating` (spec 4.4 transitions 3 and 5; `panorama.cpp` missing from the
sources).  The tracker adds the absolute normalized delta to the
accumulator; when the interval is reached a snapshot is triggered and only
the since-last-snapshot reference `last_angle` is rebased (in stepwise mode
the robot is stopped first, the heading reference is rebased per spec 4.1,
and the state becomes `HoldingForSnapshot`); when the total reaches the
target the robot is stopped, the capture is finalized and the state becomes
`Finalizing`. -/
def odomRotate (sess : Session) (h0 heading : ℤ) : PanoApp × List Cmd :=
  let angle2 := sess.angle + |normDiff (heading - h0)|
  let moved := { sess with angle := angle2, last_heading := some heading }
  let snapCont := { sess with angle := angle2, last_angle := angle2, last_heading := some heading }
  let snapStep := { sess with angle := angle2, last_angle := angle2, last_heading := none }
  if hasReachedAngle sess.snap_interval angle2 sess.last_angle then
    if sess.mode = Mode.stepwise then
      if sess.given_angle ≤ angle2 then
        (⟨OrchState.Finalizing, snapStep⟩,
         [Cmd.stop, Cmd.triggerSnapshot, Cmd.stop, Cmd.finalizeCapture])
      else
        (⟨OrchState.HoldingForSnapshot, snapStep⟩,
         [Cmd.stop, Cmd.triggerSnapshot])
    else
      if sess.given_angle ≤ angle2 then
        (⟨OrchState.Finalizing, snapCont⟩,
         [Cmd.triggerSnapshot, Cmd.stop, Cmd.finalizeCapture])
      else
        (⟨OrchState.Rotating, snapCont⟩, [Cmd.triggerSnapshot])
  else
    if sess.given_angle ≤ angle2 then
      (⟨OrchState.Finalizing, moved⟩, [Cmd.stop, Cmd.finalizeCapture])
    else
      (⟨OrchState.Rotating, moved⟩, [])

/-- Modelled from the spec: the body of `odomCb` (declared at panorama.h
line 190, `panorama.cpp` missing from the sources).  Odometry is consumed
regardless of session state but only advances the session while the session
is active and `Rotating` (spec 4.4 transition 3, section 6); the first
sample after a tracker reset only establishes the heading baseline
(spec 4.1). -/
def odomCb (app : PanoApp) (heading : ℤ) : PanoApp × List Cmd :=
  if app.state = OrchState.Rotating ∧ app.sess.is_active = true then
    match app.sess.last_heading with
    | none =>
        ({ app with sess := { app.sess with last_heading := some heading } }, [])
    | some h0 => odomRotate app.sess h0 heading
  else (app, [])

/-- Modelled from the spec: the body of `takePanoCb` (declared at panorama.h
line 163, `panorama.cpp` missing from the sources): the simplified start
request, using the configured default angle, interval, velocity and mode
(spec section 6). -/
def takePanoCb (cfg : Config) (app : PanoApp) : PanoApp × List Cmd :=
  ((takePanoServiceCb app cfg.default_pano_angle cfg.default_snap_interval
      cfg.default_rotation_velocity cfg.default_mode).1,
   (takePanoServiceCb app cfg.default_pano_angle cfg.default_snap_interval
      cfg.default_rotation_velocity cfg.default_mode).2.1)

/-- Modelled from the spec: the body of `stopPanoCb` together with
`stopPanoAction` (declared at panorama.h lines 169 and 200, `panorama.cpp`
missing from the sources), spec 4.4 transition 7 and section 7
(`PrematureFinalize`): idempotent while `Idle`; ignored while `Finalizing`;
otherwise stop the robot, then finalize the capture if at least one snapshot
has been taken, else cancel the capture task and return to `Idle`. -/
def stopPanoCb (app : PanoApp) : PanoApp × List Cmd :=
  match app.state with
  | OrchState.Idle => (app, [])
  | OrchState.Finalizing => (app, [])
  | _ =>
      if 1 ≤ app.sess.snap_count then
        ({ state := OrchState.Finalizing, sess := app.sess },
         [Cmd.stop, Cmd.finalizeCapture])
      else
        ({ state := OrchState.Idle, sess := idleSession },
         [Cmd.stop, Cmd.cancelCapture])

/-- Modelled from the spec: the body of `activeCb` (declared at panorama.h
line 207, `panorama.cpp` missing from the sources), spec 4.4 transition 2:
on the go-active notification the activity flag is set; in continuous mode
rotation starts; in stepwise mode the first, stationary snapshot is
triggered instead while the orchestrator holds for its feedback. -/
def activeCb (app : PanoApp) : PanoApp × List Cmd :=
  if app.state = OrchState.AwaitingActive then
    if app.sess.mode = Mode.continuous then
      ({ state := OrchState.Rotating,
         sess := { app.sess with is_active := true } },
       [Cmd.rotate app.sess.ang_vel_cur])
    else
      ({ state := OrchState.HoldingForSnapshot,
         sess := { app.sess with is_active := true } },
       [Cmd.triggerSnapshot])
  else (app, [])

/-- Modelled from the spec: the body of `feedbackCb` (declared at panorama.h
line 213, `panorama.cpp` missing from the sources), spec 4.3 and 4.4
transition 4: record the reported snapshot count; in `HoldingForSnapshot`
the feedback for the just-taken snapshot resumes rotation. -/
def feedbackCb (app : PanoApp) (n : Nat) : PanoApp × List Cmd :=
  if app.sess.is_active = true then
    if app.state = OrchState.HoldingForSnapshot then
      ({ state := OrchState.Rotating,
         sess := { app.sess with snap_count := n } },
       [Cmd.rotate app.sess.ang_vel_cur])
    else
      ({ app with sess := { app.sess with snap_count := n } }, [])
  else (app, [])

/-- Modelled from the spec: the body of `doneCb` (declared at panorama.h
line 220, `panorama.cpp` missing from the sources), spec 4.4 transitions 6
and 8, section 7: a result while `Finalizing` publishes the stitched image
on success and returns to `Idle`; a result in any other non-Idle state
aborts the session, forcing a Motion Commander stop before returning to
`Idle`. -/
def doneCb (app : PanoApp) (ok : Bool) : PanoApp × List Cmd :=
  match app.state with
  | OrchState.Idle => (app, [])
  | OrchState.Finalizing =>
      ({ state := OrchState.Idle, sess := idleSession },
       if ok then [Cmd.publishImage] else [])
  | _ =>
      ({ state := OrchState.Idle, sess := idleSession },
       Cmd.stop :: (if ok then [Cmd.publishImage] else []))

/-- One serialized event-handler invocation of the orchestrator
(spec section 5: the three event sources are processed as if serialized). -/
def step (cfg : Config) (app : PanoApp) : Event → PanoApp × List Cmd
  | Event.startFull a i v m =>
      ((takePanoServiceCb app a i v m).1, (takePanoServiceCb app a i v m).2.1)
  | Event.startSimple => takePanoCb cfg app
  | Event.stopReq => stopPanoCb app
  | Event.odom heading => odomCb app heading
  | Event.goalActive => activeCb app
  | Event.feedback n => feedbackCb app n
  | Event.result ok => doneCb app ok

/-- The orchestrator state after consuming a list of events. -/
def run (cfg : Config) (app : PanoApp) : List Event → PanoApp
  | [] => app
  | e :: es => run cfg (step cfg app e).1 es

/-- All commands emitted while consuming a list of events, in order. -/
def runCmds (cfg : Config) (app : PanoApp) : List Event → List Cmd
  | [] => []
  | e :: es => (step cfg app e).2 ++ runCmds cfg (step cfg app e).1 es

/-- Ghost flag for the stop-before-idle invariant: after this event handler
runs, has a `Cmd.stop` been emitted since the orchestrator last left
`Idle`?  The flag rebases whenever the handler fires with the orchestrator
idle. -/
def stopFlagStep (cfg : Config) (app : PanoApp) (flag : Bool) (e : Event) :
    Bool :=
  if app.state = OrchState.Idle then decide (Cmd.stop ∈ (step cfg app e).2)
  else flag || decide (Cmd.stop ∈ (step cfg app e).2)

/-- Run threading the stop-since-leaving-Idle ghost flag along. -/
def stopFlagRun (cfg : Config) (app : PanoApp) (flag : Bool) :
    List Event → PanoApp × Bool
  | [] => (app, flag)
  | e :: es =>
      stopFlagRun cfg (step cfg app e).1 (stopFlagStep cfg app flag e) es

/-- A sample configuration used by concrete witnesses below. -/
def cfg0 : Config :=
  { default_mode := Mode.continuous, default_pano_angle := 360,
    default_snap_interval := 30, default_rotation_velocity := 1 }

/-- A concrete rotating session used by witnesses: continuous mode,
target 90, interval 30, velocity 1, 10 degrees accumulated, active. -/
def sessR : Session :=
  { given_angle := 90, snap_interval := 30, ang_vel_cur := 1,
    mode := Mode.continuous, angle := 10, last_angle := 0, snap_count := 0,
    last_heading := some 10, is_active := true }

/-- A concrete orchestrator in `Rotating`. -/
def appRot : PanoApp := ⟨OrchState.Rotating, sessR⟩

/-- A concrete orchestrator in `AwaitingActive` (fresh session). -/
def appAwait : PanoApp :=
  ⟨OrchState.AwaitingActive, freshSession 90 30 1 Mode.continuous⟩

/-- A concrete orchestrator about to reach the 30-degree interval. -/
def appTrig : PanoApp :=
  ⟨OrchState.Rotating, { sessR with angle := 0, last_heading := some 0 }⟩

/-- A concrete stepwise orchestrator holding for a snapshot. -/
def appStepHold : PanoApp :=
  ⟨OrchState.HoldingForSnapshot, { sessR with mode := Mode.stepwise }⟩

/-- The heading-sample run of the C1 wraparound example: a session is
started and activated, then odometry reports 350, 10 and 350 degrees. -/
def wrapEvents : List Event :=
  [Event.startFull 360 90 1 Mode.continuous, Event.goalActive,
   Event.odom 350, Event.odom 10, Event.odom 350]

/-- The states an orchestrator can inhabit before any go-active
notification has arrived: idle, or awaiting activation with an untouched
session. -/
def quiet (app : PanoApp) : Prop :=
  app.state = OrchState.Idle ∨
    (app.state = OrchState.AwaitingActive ∧ app.sess.is_active = false ∧
      app.sess.snap_count = 0)

/-- The continuous-mode cadence run of C7: target 90, interval 30,
fine-grained odometry every 10 degrees, feedback after each snapshot. -/
def c7events : List Event :=
  [Event.startFull 90 30 1 Mode.continuous, Event.goalActive,
   Event.odom 0, Event.odom 10, Event.odom 20, Event.odom 30,
   Event.feedback 1, Event.odom 40, Event.odom 50, Event.odom 60,
   Event.feedback 2, Event.odom 70, Event.odom 80, Event.odom 90]

lemma odomRotate_angle (sess : Session) (h0 h : ℤ) :
    (odomRotate sess h0 h).1.sess.angle = sess.angle + |normDiff (h - h0)| := by
  simp only [odomRotate]
  split_ifs <;> rfl

lemma odomCb_angle_le (app : PanoApp) (h : ℤ) :
    app.sess.angle ≤ (odomCb app h).1.sess.angle := by
  unfold odomCb
  split_ifs with hc
  · cases hh : app.sess.last_heading with
    | none => simp
    | some h0 =>
        rw [odomRotate_angle]
        exact le_add_of_nonneg_right (abs_nonneg (normDiff (h - h0)))
  · simp

lemma run_odom_angle_le (cfg : Config) (app : PanoApp) (hs : List ℤ) :
    app.sess.angle ≤ (run cfg app (hs.map Event.odom)).sess.angle := by
  induction hs generalizing app with
  | nil => simp [run]
  | cons h t ih =>
      simp only [List.map_cons, run]
      exact le_trans (odomCb_angle_le app h) (ih (odomCb app h).1)

/-- C1 fails as literally stated: after the heading samples
350 -> 10 -> 350 the session's accumulated angle is 40 degrees (20 per
boundary crossing), not 20. -/
theorem c1_wrap_sequence_cex :
    ¬ (run cfg0 initApp wrapEvents).sess.angle = 20 := by decide

/-- C1 (amended): during a session the accumulated angle is monotonically
non-decreasing under every sequence of odometry heading samples, and the
heading samples 350 -> 10 -> 350 accumulate exactly 40 degrees in total —
each crossing of the 0/360 boundary contributing its correct magnitude of
20 degrees, never 340 and never a negative value. -/
theorem c1_angle_monotone_and_wraparound :
    (∀ (cfg : Config) (app : PanoApp) (hs : List ℤ),
        app.sess.angle ≤ (run cfg app (hs.map Event.odom)).sess.angle) ∧
    (run cfg0 initApp wrapEvents).sess.angle = 40 ∧
    |normDiff (10 - 350)| = 20 ∧ |normDiff (350 - 10)| = 20 := by
  refine ⟨run_odom_angle_le, by decide, by decide, by decide⟩

/-- C3: while any session is in progress (the orchestrator is not Idle), a
second start request — full service form or simplified topic form — returns
the already-in-progress status and leaves the orchestrator, including every
field of the in-progress session, unchanged, emitting no command. -/
theorem c3_second_start_rejected (cfg : Config) (app : PanoApp)
    (a i v : ℤ) (m : Mode) (h : app.state ≠ OrchState.Idle) :
    takePanoServiceCb app a i v m = (app, [], StartStatus.inProgress) ∧
    step cfg app Event.startSimple = (app, []) := by
  constructor
  · simp [takePanoServiceCb, h]
  · simp [step, takePanoCb, takePanoServiceCb, h]

theorem c3_second_start_rejected_witness :
    takePanoServiceCb appRot 45 5 2 Mode.stepwise =
      (appRot, [], StartStatus.inProgress) ∧
    step cfg0 appRot Event.startSimple = (appRot, []) :=
  c3_second_start_rejected cfg0 appRot 45 5 2 Mode.stepwise (by decide)

/-- C5: receiving the go-active notification in `AwaitingActive` sets the
internal activity flag at that event; in continuous mode it immediately
commands rotation, in stepwise mode it instead triggers the first snapshot
without rotating. -/
theorem c5_on_active_starts_motion (app : PanoApp)
    (h : app.state = OrchState.AwaitingActive) :
    (activeCb app).1.sess.is_active = true ∧
    (app.sess.mode = Mode.continuous →
      activeCb app =
        (⟨OrchState.Rotating, { app.sess with is_active := true }⟩,
         [Cmd.rotate app.sess.ang_vel_cur])) ∧
    (app.sess.mode = Mode.stepwise →
      activeCb app =
        (⟨OrchState.HoldingForSnapshot, { app.sess with is_active := true }⟩,
         [Cmd.triggerSnapshot])) := by
  cases hm : app.sess.mode <;> simp [activeCb, h, hm]

theorem c5_on_active_starts_motion_witness :
    (activeCb appAwait).1.sess.is_active = true ∧
    (appAwait.sess.mode = Mode.continuous →
      activeCb appAwait =
        (⟨OrchState.Rotating, { appAwait.sess with is_active := true }⟩,
         [Cmd.rotate appAwait.sess.ang_vel_cur])) ∧
    (appAwait.sess.mode = Mode.stepwise →
      activeCb appAwait =
        (⟨OrchState.HoldingForSnapshot,
          { appAwait.sess with is_active := true }⟩,
         [Cmd.triggerSnapshot])) :=
  c5_on_active_starts_motion appAwait (by decide)

/-- C9: a fully-parameterized start request with interval greater than the
target angle, or any non-positive value, is rejected without starting a
session; a simplified start request uses the configured default angle,
interval, velocity and mode for every session field. -/
theorem c9_invalid_params_and_defaults :
    (∀ (app : PanoApp) (a i v : ℤ) (m : Mode),
        app.state = OrchState.Idle → (a < i ∨ a ≤ 0 ∨ i ≤ 0 ∨ v ≤ 0) →
        takePanoServiceCb app a i v m = (app, [], StartStatus.rejected)) ∧
    (∀ (cfg : Config) (app : PanoApp), app.state = OrchState.Idle →
        0 < cfg.default_pano_angle → 0 < cfg.default_snap_interval →
        0 < cfg.default_rotation_velocity →
        cfg.default_snap_interval ≤ cfg.default_pano_angle →
        takePanoCb cfg app =
          (⟨OrchState.AwaitingActive,
            freshSession cfg.default_pano_angle cfg.default_snap_interval
              cfg.default_rotation_velocity cfg.default_mode⟩,
           [Cmd.captureStart])) := by
  constructor
  · intro app a i v m hIdle hbad
    have hcond : ¬ (0 < a ∧ 0 < i ∧ 0 < v ∧ i ≤ a) := by omega
    simp [takePanoServiceCb, hIdle, hcond]
  · intro cfg app hIdle h1 h2 h3 h4
    have hcond : 0 < cfg.default_pano_angle ∧ 0 < cfg.default_snap_interval ∧
        0 < cfg.default_rotation_velocity ∧
        cfg.default_snap_interval ≤ cfg.default_pano_angle :=
      ⟨h1, h2, h3, h4⟩
    simp [takePanoCb, takePanoServiceCb, hIdle, hcond]

theorem c9_invalid_params_and_defaults_witness :
    takePanoServiceCb initApp 30 90 1 Mode.continuous =
      (initApp, [], StartStatus.rejected) ∧
    takePanoCb cfg0 initApp =
      (⟨OrchState.AwaitingActive,
        freshSession cfg0.default_pano_angle cfg0.default_snap_interval
          cfg0.default_rotation_velocity cfg0.default_mode⟩,
       [Cmd.captureStart]) :=
  ⟨c9_invalid_params_and_defaults.1 initApp 30 90 1 Mode.continuous rfl
      (Or.inl (by decide)),
   c9_invalid_params_and_defaults.2 cfg0 initApp rfl (by decide) (by decide)
      (by decide) (by decide)⟩

lemma takePano_cases (app : PanoApp) (a i v : ℤ) (m : Mode) :
    (takePanoServiceCb app a i v m = (app, [], StartStatus.inProgress) ∧
        app.state ≠ OrchState.Idle) ∨
    takePanoServiceCb app a i v m = (app, [], StartStatus.rejected) ∨
    takePanoServiceCb app a i v m =
      ({ state := OrchState.AwaitingActive, sess := freshSession a i v m },
       [Cmd.captureStart], StartStatus.started) := by
  unfold takePanoServiceCb
  split_ifs with h1 h2
  · exact Or.inl ⟨rfl, h1⟩
  · exact Or.inr (Or.inr rfl)
  · exact Or.inr (Or.inl rfl)

/-- C4 fails as literally stated: in this run the target arc is reached and
the capture is finalized while the session has received no snapshot
feedback at all (`snap_count` is still 0), so "finalize() is called only
when at least one snapshot has been accepted" does not hold on the
target-reached path. -/
theorem c4_finalize_before_feedback_cex :
    Cmd.finalizeCapture ∈
      runCmds cfg0 initApp
        [Event.startFull 90 30 1 Mode.continuous, Event.goalActive,
         Event.odom 0, Event.odom 90] ∧
    (run cfg0 initApp
        [Event.startFull 90 30 1 Mode.continuous, Event.goalActive,
         Event.odom 0, Event.odom 90]).sess.snap_count = 0 := by decide

/-- C4 (amended): an external stop request in a pre-finalizing active state
(`AwaitingActive`, `Rotating` or `HoldingForSnapshot`) with zero snapshots
taken cancels the capture task (with a stop command) and returns to `Idle`
without calling finalize; on the external-stop path finalize is called only
when at least one snapshot has been accepted; the target-reached path may
finalize before the first feedback arrives, but only with at least one
snapshot already triggered — in the same odometry event or in an earlier
one (witnessed by a positive last-snapshot angle). -/
theorem c4_zero_snapshot_stop_cancels :
    (∀ app : PanoApp,
        (app.state = OrchState.AwaitingActive ∨ app.state = OrchState.Rotating ∨
          app.state = OrchState.HoldingForSnapshot) →
        app.sess.snap_count = 0 →
        stopPanoCb app =
          (⟨OrchState.Idle, idleSession⟩, [Cmd.stop, Cmd.cancelCapture])) ∧
    (∀ app : PanoApp,
        Cmd.finalizeCapture ∈ (stopPanoCb app).2 → 1 ≤ app.sess.snap_count) ∧
    (∀ (app : PanoApp) (h : ℤ), 0 < app.sess.snap_interval →
        app.sess.snap_interval ≤ app.sess.given_angle →
        Cmd.finalizeCapture ∈ (odomCb app h).2 →
        Cmd.triggerSnapshot ∈ (odomCb app h).2 ∨ 0 < app.sess.last_angle) := by
  refine ⟨?_, ?_, ?_⟩
  · intro app hst h0
    rcases hst with h | h | h <;> · unfold stopPanoCb; rw [h]; simp [h0]
  · intro app hmem
    by_cases hc : 1 ≤ app.sess.snap_count
    · exact hc
    · unfold stopPanoCb at hmem
      cases hst : app.state <;> simp [hc, hst] at hmem
  · intro app h hI hT hmem
    unfold odomCb at hmem ⊢
    split_ifs at hmem ⊢ with hc
    · rcases Option.eq_none_or_eq_some app.sess.last_heading with hh | ⟨h0, hh⟩
      · rw [hh] at hmem; simp at hmem
      · rw [hh] at hmem ⊢
        replace hmem : Cmd.finalizeCapture ∈ (odomRotate app.sess h0 h).2 :=
          hmem
        show Cmd.triggerSnapshot ∈ (odomRotate app.sess h0 h).2 ∨
          0 < app.sess.last_angle
        simp only [odomRotate] at hmem ⊢
        split_ifs at hmem ⊢ with h1 h2 h3
        · exact Or.inl (by simp)
        · simp at hmem
        · exact Or.inl (by simp)
        · simp at hmem
        · refine Or.inr ?_
          simp only [hasReachedAngle, decide_eq_true_eq] at h1
          omega
        · simp at hmem
    · simp at hmem

theorem c4_zero_snapshot_stop_cancels_witness :
    stopPanoCb appRot =
      (⟨OrchState.Idle, idleSession⟩, [Cmd.stop, Cmd.cancelCapture]) :=
  c4_zero_snapshot_stop_cancels.1 appRot (Or.inr (Or.inl rfl)) rfl

lemma quiet_step (cfg : Config) (app : PanoApp) (e : Event)
    (hq : quiet app) (hne : e ≠ Event.goalActive) :
    quiet (step cfg app e).1 ∧ ∀ v, Cmd.rotate v ∉ (step cfg app e).2 := by
  cases e with
  | startFull a i v m =>
      rcases takePano_cases app a i v m with ⟨hc, _⟩ | hc | hc <;>
        simp only [step, hc] <;>
        exact ⟨by first | exact hq | exact Or.inr ⟨rfl, rfl, rfl⟩, by simp⟩
  | startSimple =>
      rcases takePano_cases app cfg.default_pano_angle cfg.default_snap_interval
          cfg.default_rotation_velocity cfg.default_mode with ⟨hc, _⟩ | hc | hc <;>
        simp only [step, takePanoCb, hc] <;>
        exact ⟨by first | exact hq | exact Or.inr ⟨rfl, rfl, rfl⟩, by simp⟩
  | stopReq =>
      rcases hq with hIdle | ⟨hA, hact, hcnt⟩
      · rw [show step cfg app Event.stopReq = stopPanoCb app from rfl]
        unfold stopPanoCb
        rw [hIdle]
        exact ⟨Or.inl hIdle, by simp⟩
      · rw [show step cfg app Event.stopReq = stopPanoCb app from rfl]
        unfold stopPanoCb
        rw [hA]
        have hlt : ¬ 1 ≤ app.sess.snap_count := by omega
        rw [if_neg hlt]
        exact ⟨Or.inl rfl, by simp⟩
  | odom heading =>
      have hcond :
          ¬ (app.state = OrchState.Rotating ∧ app.sess.is_active = true) := by
        rcases hq with hIdle | ⟨hA, _, _⟩
        · simp [hIdle]
        · simp [hA]
      rw [show step cfg app (Event.odom heading) = odomCb app heading from rfl]
      unfold odomCb
      rw [if_neg hcond]
      exact ⟨hq, by simp⟩
  | goalActive => exact absurd rfl hne
  | feedback n =>
      rw [show step cfg app (Event.feedback n) = feedbackCb app n from rfl]
      unfold feedbackCb
      rcases hq with hIdle | ⟨hA, hact, hcnt⟩
      · split_ifs with h1 h2
        · rw [hIdle] at h2; cases h2
        · exact ⟨Or.inl hIdle, by simp⟩
        · exact ⟨Or.inl hIdle, by simp⟩
      · rw [hact]
        simp only [Bool.false_eq_true, if_false]
        exact ⟨Or.inr ⟨hA, hact, hcnt⟩, by simp⟩
  | result ok =>
      rw [show step cfg app (Event.result ok) = doneCb app ok from rfl]
      unfold doneCb
      rcases hq with hIdle | ⟨hA, hact, hcnt⟩
      · rw [hIdle]
        exact ⟨Or.inl hIdle, by simp⟩
      · rw [hA]
        exact ⟨Or.inl rfl, by cases ok <;> simp⟩

lemma quiet_run (cfg : Config) (events : List Event) (app : PanoApp)
    (hq : quiet app) (hno : Event.goalActive ∉ events) :
    quiet (run cfg app events) ∧
      ∀ v, Cmd.rotate v ∉ runCmds cfg app events := by
  induction events generalizing app with
  | nil => exact ⟨hq, by simp [runCmds]⟩
  | cons e es ih =>
      rw [List.mem_cons] at hno
      push_neg at hno
      obtain ⟨hne, hno2⟩ := hno
      obtain ⟨hq1, hr1⟩ := quiet_step cfg app e hq (Ne.symm hne)
      obtain ⟨hq2, hr2⟩ := ih (step cfg app e).1 hq1 hno2
      refine ⟨hq2, ?_⟩
      intro v hmem
      rw [show runCmds cfg app (e :: es) =
            (step cfg app e).2 ++ runCmds cfg (step cfg app e).1 es from rfl] at hmem
      rcases List.mem_append.mp hmem with hmem | hmem
      · exact hr1 v hmem
      · exact hr2 v hmem

/-- C6: accepting a start request while idle (valid parameters) moves the
orchestrator to `AwaitingActive` with the started status, and on every event
sequence containing no go-active notification the orchestrator never emits
a rotation command. -/
theorem c6_no_rotation_before_active :
    (∀ (app : PanoApp) (a i v : ℤ) (m : Mode),
        app.state = OrchState.Idle → 0 < a → 0 < i → 0 < v → i ≤ a →
        (takePanoServiceCb app a i v m).1.state = OrchState.AwaitingActive ∧
        (takePanoServiceCb app a i v m).2.2 = StartStatus.started) ∧
    (∀ (cfg : Config) (events : List Event), Event.goalActive ∉ events →
        ∀ v : ℤ, Cmd.rotate v ∉ runCmds cfg initApp events) := by
  constructor
  · intro app a i v m hIdle h1 h2 h3 h4
    have hcond : 0 < a ∧ 0 < i ∧ 0 < v ∧ i ≤ a := ⟨h1, h2, h3, h4⟩
    simp [takePanoServiceCb, hIdle, hcond]
  · intro cfg events hno v
    exact (quiet_run cfg events initApp (Or.inl rfl) hno).2 v

theorem c6_no_rotation_before_active_witness :
    ((takePanoServiceCb initApp 90 30 1 Mode.continuous).1.state =
        OrchState.AwaitingActive ∧
      (takePanoServiceCb initApp 90 30 1 Mode.continuous).2.2 =
        StartStatus.started) ∧
    Cmd.rotate 1 ∉
      runCmds cfg0 initApp [Event.startSimple, Event.odom 10, Event.stopReq] :=
  ⟨c6_no_rotation_before_active.1 initApp 90 30 1 Mode.continuous rfl
      (by decide) (by decide) (by decide) (by decide),
   c6_no_rotation_before_active.2 cfg0
      [Event.startSimple, Event.odom 10, Event.stopReq] (by decide) 1⟩

lemma odomRotate_trigger_last_angle (sess : Session) (h0 h : ℤ) :
    Cmd.triggerSnapshot ∈ (odomRotate sess h0 h).2 →
    (odomRotate sess h0 h).1.sess.last_angle =
      (odomRotate sess h0 h).1.sess.angle := by
  simp only [odomRotate]
  split_ifs <;> intro hmem <;> first | rfl | simp at hmem

/-- C7: in continuous mode with interval 30 and target 90, the run emits
exactly three snapshot triggers — fired when the accumulated angle reaches
30, 60 and 90 — followed by the stop and the finalize, with no other
motion command in between; and in general an odometry event that triggers a
snapshot rebases only the since-last-snapshot reference to the (never
decreasing) full-session accumulator. -/
theorem c7_snapshot_cadence :
    runCmds cfg0 initApp c7events =
      [Cmd.captureStart, Cmd.rotate 1, Cmd.triggerSnapshot,
       Cmd.triggerSnapshot, Cmd.triggerSnapshot, Cmd.stop,
       Cmd.finalizeCapture] ∧
    (run cfg0 initApp (c7events.take 6)).sess.angle = 30 ∧
    (run cfg0 initApp (c7events.take 6)).sess.last_angle = 30 ∧
    (run cfg0 initApp (c7events.take 10)).sess.angle = 60 ∧
    (run cfg0 initApp c7events).sess.angle = 90 ∧
    (run cfg0 initApp c7events).state = OrchState.Finalizing ∧
    (∀ (app : PanoApp) (h : ℤ),
        Cmd.triggerSnapshot ∈ (odomCb app h).2 →
        app.sess.angle ≤ (odomCb app h).1.sess.angle ∧
        (odomCb app h).1.sess.last_angle = (odomCb app h).1.sess.angle) := by
  refine ⟨by decide, by decide, by decide, by decide, by decide, by decide, ?_⟩
  intro app h hmem
  refine ⟨odomCb_angle_le app h, ?_⟩
  unfold odomCb at hmem ⊢
  split_ifs at hmem ⊢ with hc
  · rcases Option.eq_none_or_eq_some app.sess.last_heading with hh | ⟨h0, hh⟩
    · rw [hh] at hmem; simp at hmem
    · rw [hh] at hmem ⊢
      exact odomRotate_trigger_last_angle app.sess h0 h hmem
  · simp at hmem

theorem c7_snapshot_cadence_witness :
    Cmd.triggerSnapshot ∈ (odomCb appTrig 30).2 ∧
    (appTrig.sess.angle ≤ (odomCb appTrig 30).1.sess.angle ∧
      (odomCb appTrig 30).1.sess.last_angle =
        (odomCb appTrig 30).1.sess.angle) :=
  ⟨by decide, c7_snapshot_cadence.2.2.2.2.2.2 appTrig 30 (by decide)⟩

lemma odomRotate_stepwise_stop_first (sess : Session) (h0 h : ℤ)
    (hm : sess.mode = Mode.stepwise) :
    Cmd.triggerSnapshot ∈ (odomRotate sess h0 h).2 →
    ∃ rest, (odomRotate sess h0 h).2 =
      Cmd.stop :: Cmd.triggerSnapshot :: rest := by
  simp only [odomRotate]
  split_ifs with h1 h2 <;> intro hmem
  · exact ⟨[Cmd.stop, Cmd.finalizeCapture], rfl⟩
  · exact ⟨[], rfl⟩
  · simp at hmem
  · simp at hmem

/-- C8: in stepwise mode every snapshot triggered from an odometry event
(every snapshot after the stationary first one) is immediately preceded by
a Motion Commander stop command in the same emission, and a rotate command
is only ever emitted from `HoldingForSnapshot` by a snapshot-feedback
event — rotation resumes only after the feedback for the just-taken
snapshot. -/
theorem c8_stepwise_stop_snap_resume :
    (∀ (app : PanoApp) (h : ℤ), app.sess.mode = Mode.stepwise →
        Cmd.triggerSnapshot ∈ (odomCb app h).2 →
        ∃ rest, (odomCb app h).2 = Cmd.stop :: Cmd.triggerSnapshot :: rest) ∧
    (∀ (cfg : Config) (app : PanoApp) (e : Event) (v : ℤ),
        app.sess.mode = Mode.stepwise →
        Cmd.rotate v ∈ (step cfg app e).2 →
        app.state = OrchState.HoldingForSnapshot ∧
          ∃ n, e = Event.feedback n) := by
  constructor
  · intro app h hm hmem
    unfold odomCb at hmem ⊢
    split_ifs at hmem ⊢ with hc
    · rcases Option.eq_none_or_eq_some app.sess.last_heading with hh | ⟨h0, hh⟩
      · rw [hh] at hmem; simp at hmem
      · rw [hh] at hmem ⊢
        exact odomRotate_stepwise_stop_first app.sess h0 h hm hmem
    · simp at hmem
  · intro cfg app e v hm hmem
    cases e with
    | startFull a i v2 m =>
        rcases takePano_cases app a i v2 m with ⟨hc, _⟩ | hc | hc <;>
          simp only [step, hc] at hmem <;> simp at hmem
    | startSimple =>
        rcases takePano_cases app cfg.default_pano_angle
            cfg.default_snap_interval cfg.default_rotation_velocity
            cfg.default_mode with ⟨hc, _⟩ | hc | hc <;>
          simp only [step, takePanoCb, hc] at hmem <;> simp at hmem
    | stopReq =>
        rw [show step cfg app Event.stopReq = stopPanoCb app from rfl] at hmem
        unfold stopPanoCb at hmem
        cases hst : app.state <;>
          first
          | (simp [hst] at hmem; done)
          | (simp only [hst] at hmem; split_ifs at hmem <;> simp at hmem)
    | odom heading =>
        rw [show step cfg app (Event.odom heading) = odomCb app heading
              from rfl] at hmem
        unfold odomCb at hmem
        split_ifs at hmem with hc
        · rcases Option.eq_none_or_eq_some app.sess.last_heading with
            hh | ⟨h0, hh⟩
          · rw [hh] at hmem; simp at hmem
          · rw [hh] at hmem
            replace hmem : Cmd.rotate v ∈ (odomRotate app.sess h0 heading).2 :=
              hmem
            simp only [odomRotate] at hmem
            split_ifs at hmem <;> simp at hmem
        · simp at hmem
    | goalActive =>
        rw [show step cfg app Event.goalActive = activeCb app from rfl] at hmem
        unfold activeCb at hmem
        split_ifs at hmem with h1 h2
        · rw [hm] at h2; cases h2
        · simp at hmem
        · simp at hmem
    | feedback n =>
        rw [show step cfg app (Event.feedback n) = feedbackCb app n
              from rfl] at hmem
        unfold feedbackCb at hmem
        split_ifs at hmem with h1 h2
        · exact ⟨h2, n, rfl⟩
        · simp at hmem
        · simp at hmem
    | result ok =>
        rw [show step cfg app (Event.result ok) = doneCb app ok
              from rfl] at hmem
        unfold doneCb at hmem
        cases hst : app.state <;> cases ok <;> simp [hst] at hmem

theorem c8_stepwise_stop_snap_resume_witness :
    Cmd.rotate 1 ∈ (step cfg0 appStepHold (Event.feedback 1)).2 ∧
    (appStepHold.state = OrchState.HoldingForSnapshot ∧
      ∃ n, Event.feedback 1 = Event.feedback n) :=
  ⟨by decide,
   c8_stepwise_stop_snap_resume.2 cfg0 appStepHold (Event.feedback 1) 1 rfl
      (by decide)⟩

lemma step_enter_finalizing (cfg : Config) (app : PanoApp) (e : Event)
    (hf : (step cfg app e).1.state = OrchState.Finalizing) :
    app.state = OrchState.Finalizing ∨ Cmd.stop ∈ (step cfg app e).2 := by
  cases e with
  | startFull a i v m =>
      rcases takePano_cases app a i v m with ⟨hc, _⟩ | hc | hc <;>
        simp [step, hc] at hf ⊢ <;> exact hf
  | startSimple =>
      rcases takePano_cases app cfg.default_pano_angle cfg.default_snap_interval
          cfg.default_rotation_velocity cfg.default_mode with ⟨hc, _⟩ | hc | hc <;>
        simp [step, takePanoCb, hc] at hf ⊢ <;> exact hf
  | stopReq =>
      rw [show step cfg app Event.stopReq = stopPanoCb app from rfl] at hf ⊢
      unfold stopPanoCb at hf ⊢
      cases hst : app.state with
      | Idle => simp [hst] at hf
      | Finalizing => exact Or.inl rfl
      | AwaitingActive =>
          simp only [hst] at hf ⊢
          split_ifs at hf ⊢ with hcnt
          exact Or.inr (by simp)
      | Rotating =>
          simp only [hst] at hf ⊢
          split_ifs at hf ⊢ with hcnt
          exact Or.inr (by simp)
      | HoldingForSnapshot =>
          simp only [hst] at hf ⊢
          split_ifs at hf ⊢ with hcnt
          exact Or.inr (by simp)
  | odom heading =>
      rw [show step cfg app (Event.odom heading) = odomCb app heading
            from rfl] at hf ⊢
      unfold odomCb at hf ⊢
      split_ifs at hf ⊢ with hcond
      · rcases Option.eq_none_or_eq_some app.sess.last_heading with hh | ⟨h0, hh⟩
        · rw [hh] at hf; exact Or.inl hf
        · rw [hh] at hf ⊢
          replace hf : (odomRotate app.sess h0 heading).1.state =
            OrchState.Finalizing := hf
          show _ ∨ Cmd.stop ∈ (odomRotate app.sess h0 heading).2
          simp only [odomRotate] at hf ⊢
          split_ifs at hf ⊢ <;> exact Or.inr (by simp)
      · exact Or.inl hf
  | goalActive =>
      rw [show step cfg app Event.goalActive = activeCb app from rfl] at hf ⊢
      unfold activeCb at hf ⊢
      split_ifs at hf ⊢ with hA hm
      exact Or.inl hf
  | feedback n =>
      rw [show step cfg app (Event.feedback n) = feedbackCb app n
            from rfl] at hf ⊢
      unfold feedbackCb at hf ⊢
      split_ifs at hf ⊢ with h1 h2 <;> exact Or.inl hf
  | result ok =>
      rw [show step cfg app (Event.result ok) = doneCb app ok from rfl] at hf
      unfold doneCb at hf
      cases hst : app.state <;> simp [hst] at hf

lemma step_exit_stop (cfg : Config) (app : PanoApp) (e : Event)
    (h1 : app.state ≠ OrchState.Idle)
    (h2 : (step cfg app e).1.state = OrchState.Idle) :
    Cmd.stop ∈ (step cfg app e).2 ∨ app.state = OrchState.Finalizing := by
  cases e with
  | startFull a i v m =>
      rcases takePano_cases app a i v m with ⟨hc, _⟩ | hc | hc <;>
        simp [step, hc] at h2 ⊢ <;> exact absurd h2 h1
  | startSimple =>
      rcases takePano_cases app cfg.default_pano_angle cfg.default_snap_interval
          cfg.default_rotation_velocity cfg.default_mode with ⟨hc, _⟩ | hc | hc <;>
        simp [step, takePanoCb, hc] at h2 ⊢ <;> exact absurd h2 h1
  | stopReq =>
      rw [show step cfg app Event.stopReq = stopPanoCb app from rfl] at h2 ⊢
      unfold stopPanoCb at h2 ⊢
      cases hst : app.state with
      | Idle => exact absurd hst h1
      | Finalizing => exact Or.inr rfl
      | AwaitingActive =>
          simp only [hst] at h2 ⊢
          split_ifs at h2 ⊢ with hcnt
          exact Or.inl (by simp)
      | Rotating =>
          simp only [hst] at h2 ⊢
          split_ifs at h2 ⊢ with hcnt
          exact Or.inl (by simp)
      | HoldingForSnapshot =>
          simp only [hst] at h2 ⊢
          split_ifs at h2 ⊢ with hcnt
          exact Or.inl (by simp)
  | odom heading =>
      rw [show step cfg app (Event.odom heading) = odomCb app heading
            from rfl] at h2 ⊢
      unfold odomCb at h2 ⊢
      split_ifs at h2 ⊢ with hcond
      · rcases Option.eq_none_or_eq_some app.sess.last_heading with hh | ⟨h0, hh⟩
        · rw [hh] at h2; exact absurd h2 h1
        · rw [hh] at h2
          replace h2 : (odomRotate app.sess h0 heading).1.state =
            OrchState.Idle := h2
          simp only [odomRotate] at h2
          split_ifs at h2
      · exact absurd h2 h1
  | goalActive =>
      rw [show step cfg app Event.goalActive = activeCb app from rfl] at h2
      unfold activeCb at h2
      split_ifs at h2 with hA hm
      exact absurd h2 h1
  | feedback n =>
      rw [show step cfg app (Event.feedback n) = feedbackCb app n
            from rfl] at h2
      unfold feedbackCb at h2
      split_ifs at h2 with hA hm <;> exact absurd h2 h1
  | result ok =>
      rw [show step cfg app (Event.result ok) = doneCb app ok from rfl] at h2 ⊢
      unfold doneCb at h2 ⊢
      cases hst : app.state with
      | Idle => exact absurd hst h1
      | Finalizing => exact Or.inr rfl
      | AwaitingActive => refine Or.inl ?_; simp
      | Rotating => refine Or.inl ?_; simp
      | HoldingForSnapshot => refine Or.inl ?_; simp

lemma stopFlagStep_true_of_mem (cfg : Config) (app : PanoApp) (flag : Bool)
    (e : Event) (h : Cmd.stop ∈ (step cfg app e).2) :
    stopFlagStep cfg app flag e = true := by
  unfold stopFlagStep
  split_ifs <;> simp [h]

lemma stopFlagStep_true_of_flag (cfg : Config) (app : PanoApp) (flag : Bool)
    (e : Event) (hne : app.state ≠ OrchState.Idle) (hf : flag = true) :
    stopFlagStep cfg app flag e = true := by
  unfold stopFlagStep
  rw [if_neg hne, hf]
  simp

lemma stopFlagRun_finalizing (cfg : Config) (events : List Event) :
    ∀ (app : PanoApp) (flag : Bool),
      (app.state = OrchState.Finalizing → flag = true) →
      (stopFlagRun cfg app flag events).1.state = OrchState.Finalizing →
      (stopFlagRun cfg app flag events).2 = true := by
  induction events with
  | nil => intro app flag hI hf; exact hI hf
  | cons e es ih =>
      intro app flag hI
      rw [show stopFlagRun cfg app flag (e :: es) =
            stopFlagRun cfg (step cfg app e).1 (stopFlagStep cfg app flag e) es
          from rfl]
      refine ih (step cfg app e).1 (stopFlagStep cfg app flag e) ?_
      intro hf
      rcases step_enter_finalizing cfg app e hf with hFin | hmem
      · exact stopFlagStep_true_of_flag cfg app flag e
          (by rw [hFin]; simp) (hI hFin)
      · exact stopFlagStep_true_of_mem cfg app flag e hmem

/-- C2: on every terminal exit of a session — whenever a step takes the
orchestrator from a non-Idle state back to `Idle`, in any run from the
initial state — a Motion Commander stop command has been emitted since the
orchestrator last left `Idle` (the ghost flag threaded by `stopFlagRun` is
true after the exiting step): no execution path from an active session to
`Idle` skips the stop command. -/
theorem c2_stop_before_idle (cfg : Config) (events : List Event) (e : Event)
    (h1 : (stopFlagRun cfg initApp true events).1.state ≠ OrchState.Idle)
    (h2 : (step cfg (stopFlagRun cfg initApp true events).1 e).1.state =
      OrchState.Idle) :
    stopFlagStep cfg (stopFlagRun cfg initApp true events).1
      (stopFlagRun cfg initApp true events).2 e = true := by
  rcases step_exit_stop cfg (stopFlagRun cfg initApp true events).1 e h1 h2 with
    hmem | hFin
  · exact stopFlagStep_true_of_mem cfg _ _ e hmem
  · exact stopFlagStep_true_of_flag cfg _ _ e h1
      (stopFlagRun_finalizing cfg events initApp true (fun _ => rfl) hFin)

theorem c2_stop_before_idle_witness :
    stopFlagStep cfg0
      (stopFlagRun cfg0 initApp true [Event.startFull 90 30 1 Mode.continuous]).1
      (stopFlagRun cfg0 initApp true [Event.startFull 90 30 1 Mode.continuous]).2
      Event.stopReq = true :=
  c2_stop_before_idle cfg0 [Event.startFull 90 30 1 Mode.continuous]
    Event.stopReq (by decide) (by decide)

/-- C10: a stop request received while the orchestrator is idle changes no
state and emits no command at all — in particular no duplicate stop command
to the Motion Commander. -/
theorem c10_stop_while_idle_idempotent (app : PanoApp)
    (h : app.state = OrchState.Idle) : stopPanoCb app = (app, []) := by
  unfold stopPanoCb
  rw [h]

theorem c10_stop_while_idle_idempotent_witness :
    stopPanoCb initApp = (initApp, []) :=
  c10_stop_while_idle_idempotent initApp rfl

end TurtlebotPanorama
